import Mathlib

/-!
Verification development for the notification delivery pipeline of
`backend/services/notification_service.py` (keepsafe repository).

The embedding models the dispatcher's per-message lifecycle, the failure
escalation state machine (main queue → DLQ → discard), the Expo REST send
path with rate-limit backoff, the enqueue validation, the semaphore
concurrency gate and the DLQ reprocessing queue-name swap.

External interactions (Supabase queue RPCs raising or succeeding, the
gateway's per-attempt HTTP results) are supplied as oracle parameters, so
every control-flow path of the Python code is represented.
-/

/-- The `stats` dictionary built in `process_queue` and threaded through
`_process_message` and `_handle_failure`. -/
structure Stats where
  processed : Nat
  succeeded : Nat
  failed : Nat
  moved_to_dlq : Nat
  discarded : Nat
  deriving DecidableEq, Repr

/-- The all-zero stats dictionary `process_queue` starts from. -/
def zeroStats : Stats := ⟨0, 0, 0, 0, 0⟩

/-- The notification job payload carried in a queue message: the fields the
core reads (`title`, `body`, `recipients`, `priority`, `failure_count`);
`metadata`/`data` are opaque pass-through and play no role in the claims. -/
structure MsgData where
  title : String
  body : String
  recipients : List String
  priority : String
  failure_count : Nat
  deriving DecidableEq, Repr

/-- Externally visible queue/gateway actions issued while handling one
message, in program order: `deleteMsg` is the `pgmq_public.delete` RPC on
the configured queue, `sendDLQ` the `pgmq_public.send` RPC onto the DLQ
with the (updated) serialized payload, `gatewayCall` the outbound Expo
send attempt for the job's recipients. -/
inductive Effect where
  | deleteMsg (msgId : Nat) : Effect
  | sendDLQ (payload : MsgData) : Effect
  | gatewayCall (recipients : List String) : Effect
  deriving DecidableEq, Repr

/-- Oracle for the external interactions of one message's processing:
`sendOk` is the boolean returned by `_send_notification`; `deleteRaises`
(resp. `dlqRaises`) says whether the delete RPC (resp. the DLQ send RPC)
raises when invoked; `otherRaise` models any other exception thrown inside
the `try` block of `_process_message` (caught at line 266). -/
structure MsgEnv where
  sendOk : Bool
  deleteRaises : Bool
  dlqRaises : Bool
  otherRaise : Bool
  deriving DecidableEq, Repr

/-- `_handle_failure` (notification_service.py lines 526-611): increment the
failure count; if the new count is within `dlq_limit`, delete from the main
queue then enqueue the updated payload onto the DLQ (counting
`moved_to_dlq`), otherwise delete only (counting `discarded`). Exceptions
from either RPC are caught inside the branch, skipping that branch's
counter; `stats["failed"] += 1` runs unconditionally after both branches. -/
def handle_failure (dlq_limit : Nat) (msg_id : Nat) (message_data : MsgData)
    (failure_count : Nat) (deleteRaises dlqRaises : Bool) (stats : Stats) :
    Stats × List Effect :=
  let new_failure_count := failure_count + 1
  let updated := { message_data with failure_count := new_failure_count }
  if new_failure_count ≤ dlq_limit then
    if deleteRaises then
      ({ stats with failed := stats.failed + 1 }, [])
    else if dlqRaises then
      ({ stats with failed := stats.failed + 1 }, [Effect.deleteMsg msg_id])
    else
      ({ stats with moved_to_dlq := stats.moved_to_dlq + 1,
                    failed := stats.failed + 1 },
        [Effect.deleteMsg msg_id, Effect.sendDLQ updated])
  else
    if deleteRaises then
      ({ stats with failed := stats.failed + 1 }, [])
    else
      ({ stats with discarded := stats.discarded + 1,
                    failed := stats.failed + 1 },
        [Effect.deleteMsg msg_id])

/-- The shape validation of `_process_message` line 226:
`if not title or not body or not recipients`. -/
def invalid_shape (md : MsgData) : Bool :=
  md.title == "" || md.body == "" || md.recipients.isEmpty

/-- The body of `_process_message` from `stats["processed"] += 1` (line
214) on, i.e. for a message whose payload already parsed: bump
`processed`, discard malformed payloads, otherwise attempt the gateway
send; on success delete and count `succeeded`, on failure escalate via
`handle_failure`. Any exception inside the `try` block at line 216 is
caught at the message boundary and counts `failed`. `json.loads` at line
210 runs before all of this; its failure is uncaught and is modeled by
`process_message_run` / `process_queue_run` below. -/
def process_message (dlq_limit : Nat) (msg_id : Nat) (md : MsgData)
    (env : MsgEnv) (stats : Stats) : Stats × List Effect :=
  let s1 := { stats with processed := stats.processed + 1 }
  if env.otherRaise then
    ({ s1 with failed := s1.failed + 1 }, [])
  else if invalid_shape md then
    if env.deleteRaises then
      ({ s1 with failed := s1.failed + 1 }, [])
    else
      ({ s1 with failed := s1.failed + 1 }, [Effect.deleteMsg msg_id])
  else if env.sendOk then
    if env.deleteRaises then
      ({ s1 with failed := s1.failed + 1 }, [Effect.gatewayCall md.recipients])
    else
      ({ s1 with succeeded := s1.succeeded + 1 },
        [Effect.gatewayCall md.recipients, Effect.deleteMsg msg_id])
  else
    let r := handle_failure dlq_limit msg_id md md.failure_count
      env.deleteRaises env.dlqRaises s1
    (r.1, Effect.gatewayCall md.recipients :: r.2)

/-- One step of the `process_queue` batch loop: process one dequeued
message, accumulating stats and the effect trace. -/
def process_queue_step (dlq_limit : Nat) (acc : Stats × List Effect)
    (m : Nat × MsgData × MsgEnv) : Stats × List Effect :=
  let r := process_message dlq_limit m.1 m.2.1 m.2.2 acc.1
  (r.1, acc.2 ++ r.2)

/-- `process_queue` (lines 134-193) over an already-dequeued batch whose
payloads all parsed: fold `_process_message` over the messages starting
from zero stats. (In the code the per-message tasks run under cooperative
scheduling and each counter update is a single non-awaiting increment, so
when every task runs to completion the sequential fold computes the same
counters for any interleaving.) Batches that may contain unparseable
string payloads are `process_queue_run` below. -/
def process_queue (dlq_limit : Nat)
    (msgs : List (Nat × MsgData × MsgEnv)) : Stats × List Effect :=
  List.foldl (process_queue_step dlq_limit) (zeroStats, []) msgs

/-- The `message` field of a dequeued queue row as `_process_message`
receives it (lines 207-212): either a dict — or a JSON string that
`json.loads` accepts — carrying the job payload, or a string that
`json.loads` rejects. -/
inductive RawPayload where
  | parsedJson (md : MsgData) : RawPayload
  | badJson : RawPayload
  deriving DecidableEq, Repr

/-- Whether `json.loads` at line 210 accepts the payload. -/
def payload_parses : RawPayload → Bool
  | RawPayload.parsedJson _ => true
  | RawPayload.badJson => false

/-- `_process_message` seen from its caller: `json.loads` at line 210 runs
before the `try:` at line 216 and before `stats["processed"] += 1` at line
214, so a payload string that does not parse raises out of the coroutine
with no stats mutation and no effect — `none` models that uncaught raise.
A payload that parses proceeds as `process_message`. -/
def process_message_run (dlq_limit msg_id : Nat) (p : RawPayload)
    (env : MsgEnv) (stats : Stats) : Option (Stats × List Effect) :=
  match p with
  | RawPayload.parsedJson md =>
    some (process_message dlq_limit msg_id md env stats)
  | RawPayload.badJson => none

/-- The first scheduling segment of one per-message task: what it runs
from task start to its first true suspension point, its completion, or its
uncaught raise. A `badJson` payload raises before mutating stats. A
payload that parses counts `processed`; then an exception caught inside
the `try` or a malformed shape finishes the task within this segment
(`_delete_message` awaits nothing that suspends), while a well-formed
payload suspends at the gateway HTTP await (line 377) — or at the
semaphore — having counted only `processed`. -/
def first_segment (msg_id : Nat) (p : RawPayload) (env : MsgEnv)
    (stats : Stats) : Stats × List Effect :=
  match p with
  | RawPayload.badJson => (stats, [])
  | RawPayload.parsedJson md =>
    let s1 := { stats with processed := stats.processed + 1 }
    if env.otherRaise then
      ({ s1 with failed := s1.failed + 1 }, [])
    else if invalid_shape md then
      if env.deleteRaises then
        ({ s1 with failed := s1.failed + 1 }, [])
      else
        ({ s1 with failed := s1.failed + 1 }, [Effect.deleteMsg msg_id])
    else
      (s1, [])

/-- The batch with every payload unwrapped, for runs where all parse. -/
def parsed_msgs (msgs : List (Nat × RawPayload × MsgEnv)) :
    List (Nat × MsgData × MsgEnv) :=
  msgs.filterMap (fun m =>
    match m.2.1 with
    | RawPayload.parsedJson md => some (m.1, md, m.2.2)
    | RawPayload.badJson => none)

/-- `process_queue` over the raw dequeued batch. When every payload
parses, every task runs to completion and `asyncio.gather` (line 178)
returns normally: the final stats are the sequential fold. When some
payload does not parse, that task's parse exception propagates through
`asyncio.gather` into `process_queue`'s `except` (line 186), which
returns the stats dict as it stands at that moment. Under the event
loop's FIFO scheduling every task has then run exactly its first segment
— the tasks start in order before the gather await resumes, and no
gateway response callback is processed in between — so the returned
snapshot is the fold of first segments: messages still in flight at the
gateway are counted in `processed` with no matching `succeeded` or
`failed`. -/
def process_queue_run (dlq_limit : Nat)
    (msgs : List (Nat × RawPayload × MsgEnv)) : Stats × List Effect :=
  if msgs.all (fun m => payload_parses m.2.1) then
    process_queue dlq_limit (parsed_msgs msgs)
  else
    List.foldl
      (fun acc m =>
        let r := first_segment m.1 m.2.1 m.2.2 acc.1
        (r.1, acc.2 ++ r.2))
      (zeroStats, []) msgs

/-- One element of the Expo REST response body's ticket array: a JSON
object carrying an optional `"status"` field, or a non-object element
(which the `isinstance(ticket, dict)` filter at line 399 skips). -/
inductive TicketJson where
  | obj (status : Option String) : TicketJson
  | nonObj : TicketJson
  deriving DecidableEq, Repr

/-- The per-ticket predicate of the `all(...)` generator at lines 396-400:
an object ticket passes when its `"status"` equals `"ok"`; non-object
elements are filtered out, hence pass vacuously. -/
def ticket_passes : TicketJson → Bool
  | TicketJson.obj status => status == some "ok"
  | TicketJson.nonObj => true

/-- `all_success` at line 396: every (object) ticket reports `"ok"`. -/
def all_success (tickets : List TicketJson) : Bool :=
  tickets.all ticket_passes

/-- The parsed JSON body of a 2xx Expo response, as discriminated at lines
388-393: a dict with a `"data"` array, a bare array, or any other value
(wrapped as a one-element ticket list). -/
inductive ApiResult where
  | withData (tickets : List TicketJson) : ApiResult
  | asList (tickets : List TicketJson) : ApiResult
  | single (t : TicketJson) : ApiResult
  deriving DecidableEq, Repr

/-- Ticket extraction, lines 388-393. -/
def extract_tickets : ApiResult → List TicketJson
  | ApiResult.withData tickets => tickets
  | ApiResult.asList tickets => tickets
  | ApiResult.single t => [t]

/-- The boolean returned by `_send_notification_via_rest_api` on a 2xx
response (lines 384-416): `true` exactly when `all_success` holds of the
extracted tickets. -/
def rest_api_body_success (r : ApiResult) : Bool :=
  all_success (extract_tickets r)

/-- Oracle for one HTTP attempt of `_send_notification_via_rest_api`:
a 2xx response with a parsed body, an `httpx.HTTPStatusError` carrying the
response's status code (raised by `raise_for_status`), or any other
exception (network error, JSON decode error, ...). -/
inductive AttemptResult where
  | httpOk (r : ApiResult) : AttemptResult
  | httpError (statusCode : Nat) : AttemptResult
  | otherError : AttemptResult
  deriving DecidableEq, Repr

/-- The backoff delay computed at line 429:
`delay = min(2 ** retry_count + random.uniform(0, 1), 60)`. The jitter
drawn from `random.uniform(0, 1)` is a parameter. -/
def backoff_delay (retry_count : Nat) (jitter : ℚ) : ℚ :=
  min (2 ^ retry_count + jitter) 60

/-- `_send_notification_via_rest_api` (lines 327-447), with the HTTP
attempt results and jitter draws supplied per `retry_count` by oracles.
Returns the boolean result together with the list of sleeps performed
(one per rate-limit retry). A 429 status with `retry_count < max_retries`
sleeps for `backoff_delay` and recurses at `retry_count + 1`; every other
error path returns `false` with no further attempt. -/
def send_rest (max_retries : Nat) (attempts : Nat → AttemptResult)
    (jitter : Nat → ℚ) (retry_count : Nat) : Bool × List ℚ :=
  match attempts retry_count with
  | AttemptResult.httpOk r => (rest_api_body_success r, [])
  | AttemptResult.httpError statusCode =>
    if h : retry_count < max_retries ∧ statusCode = 429 then
      let d := backoff_delay retry_count (jitter retry_count)
      let rest := send_rest max_retries attempts jitter (retry_count + 1)
      (rest.1, d :: rest.2)
    else
      (false, [])
  | AttemptResult.otherError => (false, [])
termination_by max_retries - retry_count
decreasing_by omega

/-- The priority normalization of `enqueue_notification` lines 80-82. -/
def normalize_priority (priority : String) : String :=
  if priority == "default" || priority == "normal" || priority == "high" then
    priority
  else
    "default"

/-- `enqueue_notification` (lines 52-132): reject empty title/body/
recipients, normalize the priority, build the job with `failure_count = 0`
and write it to the main queue. `queueWriteRaises` says whether the
`pgmq_public.send` RPC raises; the surrounding `try`/`except` converts any
exception into a `false` return. Returns the boolean result and the job
written to the queue (`none` when nothing was durably written). -/
def enqueue_notification (title body : String) (recipients : List String)
    (priority : String) (queueWriteRaises : Bool) : Bool × Option MsgData :=
  if title == "" || body == "" || recipients.isEmpty then
    (false, none)
  else
    let job : MsgData :=
      { title := title, body := body, recipients := recipients,
        priority := normalize_priority priority, failure_count := 0 }
    if queueWriteRaises then
      (false, none)
    else
      (true, some job)

/-- The configuration fields `NotificationService.__init__` copies from
settings (lines 26-30); `queue_name` is the only one ever reassigned
(by `process_dlq`). -/
structure ServiceConfig where
  queue_name : String
  dlq_name : String
  concurrency : Nat
  batch_size : Nat
  dlq_limit : Nat
  deriving DecidableEq, Repr

/-- `process_dlq` (lines 838-862): save `queue_name`, point it at the DLQ,
run `process_queue` (reading from the now-configured queue), and restore
the saved name in a `finally` block, so the restore happens whether
processing returned normally (`processRaises = false`) or raised. `reads`
maps a queue name to the batch its `pgmq_public.read` returns. -/
def process_dlq (svc : ServiceConfig)
    (reads : String → List (Nat × MsgData × MsgEnv))
    (processRaises : Bool) : ServiceConfig × Option Stats :=
  let original_queue := svc.queue_name
  let swapped := { svc with queue_name := svc.dlq_name }
  let restored := { swapped with queue_name := original_queue }
  if processRaises then
    (restored, none)
  else
    (restored, some (process_queue swapped.dlq_limit (reads swapped.queue_name)).1)

/-- Abstract state of one `process_queue` batch under the semaphore gate
(`asyncio.Semaphore(self.concurrency)`, line 44): how many permits the
semaphore holds, and how many per-message tasks are before their
`async with self.semaphore` (line 305), inside it (the gateway attempt,
retries included), or past it. -/
structure DispatchState where
  permits : Nat
  pendingTasks : Nat
  inFlightCalls : Nat
  doneTasks : Nat
  deriving DecidableEq, Repr

/-- The two semaphore events of `_send_notification` (lines 278-325):
entering `async with self.semaphore` consumes a permit (only possible when
one is available — a task otherwise stays suspended in `pendingTasks`),
and leaving it returns the permit after the whole attempt, its internal
retries included, completes. -/
inductive DispatchStep : DispatchState → DispatchState → Prop where
  | acquire (p q f d : Nat) :
      DispatchStep ⟨p + 1, q + 1, f, d⟩ ⟨p, q, f + 1, d⟩
  | release (p q f d : Nat) :
      DispatchStep ⟨p, q, f + 1, d⟩ ⟨p + 1, q, f, d + 1⟩

/-- Initial batch state: the semaphore starts full at `concurrency = k`
(line 44) and all `m` dequeued messages (up to `batch_size`) start before
their acquire. -/
def dispatchInit (k m : Nat) : DispatchState := ⟨k, m, 0, 0⟩

/-- States a batch run with concurrency `k` and `m` dequeued messages can
reach through semaphore events. -/
def DispatchReachable (k m : Nat) (s : DispatchState) : Prop :=
  Relation.ReflTransGen DispatchStep (dispatchInit k m) s

/-- The stats invariant maintained across the batch fold: every processed
message is counted exactly once as succeeded or failed, and DLQ moves and
discards never exceed the failures they accompany. -/
def statsInv (s : Stats) : Prop :=
  s.processed = s.succeeded + s.failed ∧
    s.moved_to_dlq + s.discarded ≤ s.failed

/-- A well-formed sample job used to instantiate theorems at concrete
inputs. -/
def sampleJob : MsgData :=
  { title := "You got a new memory", body := "Someone shared an entry",
    recipients := ["ExponentPushToken[abc]"], priority := "default",
    failure_count := 0 }

/-- A malformed sample job: empty recipients list. -/
def badJob : MsgData :=
  { title := "You got a new memory", body := "Someone shared an entry",
    recipients := [], priority := "default", failure_count := 0 }

/-- The oracle for a run where no external call raises. -/
def calmEnv (sendOk : Bool) : MsgEnv :=
  { sendOk := sendOk, deleteRaises := false, dlqRaises := false,
    otherRaise := false }

/-- An attempt oracle answering HTTP 429 to every request. -/
def always429 : Nat → AttemptResult := fun _ => AttemptResult.httpError 429

/-- An attempt oracle answering HTTP 500 to every request. -/
def always500 : Nat → AttemptResult := fun _ => AttemptResult.httpError 500

/-- An attempt oracle raising a non-HTTP exception on every request. -/
def alwaysRaise : Nat → AttemptResult := fun _ => AttemptResult.otherError

/-- A constant jitter draw of one half. -/
def halfJitter : Nat → ℚ := fun _ => 1 / 2

/-- C1: when a delivery attempt ultimately fails with failure count `f`,
the handler moves the message to the DLQ (delete from the main queue, then
enqueue with `failure_count = f + 1`, counting `moved_to_dlq`) when
`f + 1 ≤ dlq_limit`, and discards it (delete only, no DLQ write, counting
`discarded`) when `f + 1 > dlq_limit`; exactly at the boundary
`f + 1 = dlq_limit` it is moved to the DLQ, not discarded. -/
theorem handle_failure_dlq_threshold (dlq_limit msg_id failure_count : Nat)
    (md : MsgData) (s : Stats) :
    (failure_count + 1 ≤ dlq_limit →
      handle_failure dlq_limit msg_id md failure_count false false s =
        ({ s with moved_to_dlq := s.moved_to_dlq + 1, failed := s.failed + 1 },
          [Effect.deleteMsg msg_id,
            Effect.sendDLQ { md with failure_count := failure_count + 1 }]))
    ∧ (dlq_limit < failure_count + 1 →
      handle_failure dlq_limit msg_id md failure_count false false s =
        ({ s with discarded := s.discarded + 1, failed := s.failed + 1 },
          [Effect.deleteMsg msg_id]))
    ∧ (failure_count + 1 = dlq_limit →
      handle_failure dlq_limit msg_id md failure_count false false s =
        ({ s with moved_to_dlq := s.moved_to_dlq + 1, failed := s.failed + 1 },
          [Effect.deleteMsg msg_id,
            Effect.sendDLQ { md with failure_count := failure_count + 1 }])) := by
  refine ⟨fun h => ?_, fun h => ?_, fun h => ?_⟩
  · simp [handle_failure, h]
  · have hn : ¬ (failure_count + 1 ≤ dlq_limit) := by omega
    simp [handle_failure, hn]
  · have hle : failure_count + 1 ≤ dlq_limit := le_of_eq h
    simp [handle_failure, hle]

/-- C1 witness: with `dlq_limit = 3`, a failing message at
`failure_count = 2` is moved to the DLQ with count 3 (the boundary), and
one at `failure_count = 3` is discarded. -/
theorem handle_failure_dlq_threshold_witness :
    2 + 1 ≤ 3 ∧ (3 : Nat) < 3 + 1 ∧
    handle_failure 3 7 sampleJob 2 false false zeroStats =
      ({ zeroStats with moved_to_dlq := 1, failed := 1 },
        [Effect.deleteMsg 7, Effect.sendDLQ { sampleJob with failure_count := 3 }]) ∧
    handle_failure 3 7 sampleJob 3 false false zeroStats =
      ({ zeroStats with discarded := 1, failed := 1 }, [Effect.deleteMsg 7]) :=
  ⟨by decide, by decide,
    (handle_failure_dlq_threshold 3 7 2 sampleJob zeroStats).1 (by decide),
    (handle_failure_dlq_threshold 3 7 3 sampleJob zeroStats).2.1 (by decide)⟩

/-- C10: the failure handler increments `failed` exactly once on every
path, including those where the main-queue delete or the DLQ enqueue
raises; in those exception cases neither `moved_to_dlq` nor `discarded` is
incremented. (The handler is a total function of its oracles: both RPC
exceptions are caught inside it, so none propagates to the caller.) -/
theorem handle_failure_counts_failed_once (dlq_limit msg_id failure_count : Nat)
    (md : MsgData) (deleteRaises dlqRaises : Bool) (s : Stats) :
    (handle_failure dlq_limit msg_id md failure_count deleteRaises dlqRaises s).1.failed
        = s.failed + 1
    ∧ (deleteRaises = true ∨ (failure_count + 1 ≤ dlq_limit ∧ dlqRaises = true) →
      (handle_failure dlq_limit msg_id md failure_count deleteRaises dlqRaises s).1.moved_to_dlq
          = s.moved_to_dlq
      ∧ (handle_failure dlq_limit msg_id md failure_count deleteRaises dlqRaises s).1.discarded
          = s.discarded) := by
  constructor
  · by_cases hle : failure_count + 1 ≤ dlq_limit <;>
      cases deleteRaises <;> cases dlqRaises <;>
        simp [handle_failure, hle]
  · intro h
    by_cases hle : failure_count + 1 ≤ dlq_limit <;>
      cases deleteRaises <;> cases dlqRaises <;>
        simp [handle_failure, hle] <;> simp_all <;> omega

/-- C10 witness: a DLQ-enqueue exception at `failure_count = 0`,
`dlq_limit = 3` still counts one failure and leaves `moved_to_dlq` and
`discarded` untouched. -/
theorem handle_failure_counts_failed_once_witness :
    (handle_failure 3 7 sampleJob 0 false true zeroStats).1.failed = 1 ∧
    (handle_failure 3 7 sampleJob 0 false true zeroStats).1.moved_to_dlq = 0 ∧
    (handle_failure 3 7 sampleJob 0 false true zeroStats).1.discarded = 0 :=
  ⟨(handle_failure_counts_failed_once 3 7 0 sampleJob false true zeroStats).1,
    ((handle_failure_counts_failed_once 3 7 0 sampleJob false true zeroStats).2
      (Or.inr ⟨by decide, rfl⟩)).1,
    ((handle_failure_counts_failed_once 3 7 0 sampleJob false true zeroStats).2
      (Or.inr ⟨by decide, rfl⟩)).2⟩

/-- C7: a dequeued message whose payload is missing title, body or
recipients (an empty recipients list included) is deleted from the main
queue with no gateway attempt and no DLQ write — never retried or
escalated — and contributes exactly `processed + 1` and `failed + 1` to
the batch stats. -/
theorem malformed_payload_discarded (dlq_limit msg_id : Nat) (md : MsgData)
    (env : MsgEnv) (s : Stats) (hbad : invalid_shape md = true)
    (hdel : env.deleteRaises = false) (hexn : env.otherRaise = false) :
    process_message dlq_limit msg_id md env s =
      ({ s with processed := s.processed + 1, failed := s.failed + 1 },
        [Effect.deleteMsg msg_id]) := by
  obtain ⟨sendOk, deleteRaises, dlqRaises, otherRaise⟩ := env
  simp only at hdel hexn
  subst hdel hexn
  simp [process_message, hbad]

/-- C7 witness: a payload with an empty recipients list is deleted without
a gateway call and counted as one processed, one failed. -/
theorem malformed_payload_discarded_witness :
    invalid_shape badJob = true ∧
    process_message 3 9 badJob (calmEnv false) zeroStats =
      ({ zeroStats with processed := 1, failed := 1 }, [Effect.deleteMsg 9]) :=
  ⟨by decide,
    malformed_payload_discarded 3 9 badJob (calmEnv false) zeroStats
      (by decide) rfl rfl⟩

/-- Processing one message preserves the stats invariant: `processed` grows
by one and exactly one of `succeeded`/`failed` grows by one, while
`moved_to_dlq`/`discarded` grow only alongside `failed`. -/
theorem process_message_preserves_statsInv (dlq_limit msg_id : Nat)
    (md : MsgData) (env : MsgEnv) (s : Stats) (h : statsInv s) :
    statsInv (process_message dlq_limit msg_id md env s).1 := by
  obtain ⟨sendOk, deleteRaises, dlqRaises, otherRaise⟩ := env
  obtain ⟨hp, hm⟩ := h
  by_cases hle : md.failure_count + 1 ≤ dlq_limit <;>
    by_cases hbad : invalid_shape md <;>
      cases sendOk <;> cases deleteRaises <;> cases dlqRaises <;>
        cases otherRaise <;>
          simp [process_message, handle_failure, statsInv, hbad, hle] <;>
            omega

/-- The batch fold keeps the stats invariant from any accumulator that has
it. -/
theorem process_queue_foldl_statsInv (dlq_limit : Nat) :
    ∀ (msgs : List (Nat × MsgData × MsgEnv)) (acc : Stats × List Effect),
      statsInv acc.1 →
      statsInv (List.foldl (process_queue_step dlq_limit) acc msgs).1 := by
  intro msgs
  induction msgs with
  | nil => intro acc h; exact h
  | cons m rest ih =>
    intro acc h
    simp only [List.foldl_cons]
    exact ih _ (process_message_preserves_statsInv dlq_limit m.1 m.2.1 m.2.2 acc.1 h)

/-- C2: the claimed partition `processed = succeeded + failed` fails on
the code. In a batch of one well-formed message followed by one whose
payload string does not parse, the parse exception at `json.loads` (line
210, before the `try:` at line 216) propagates through `asyncio.gather`,
and `process_queue` returns the snapshot with the well-formed message
counted in `processed` while still in flight at the gateway and nothing
counted in `succeeded` or `failed`: `1 ≠ 0 + 0`. The claim states the
spec's intent — its propagation policy says per-message errors are caught
at the per-message boundary and converted into stats — and the parse
sitting outside the `try` is the slip. -/
theorem process_queue_parse_abort_breaks_partition :
    (process_queue_run 3
        [(1, RawPayload.parsedJson sampleJob, calmEnv true),
          (2, RawPayload.badJson, calmEnv true)]).1 =
      { processed := 1, succeeded := 0, failed := 0, moved_to_dlq := 0,
        discarded := 0 }
    ∧ ¬ ((process_queue_run 3
        [(1, RawPayload.parsedJson sampleJob, calmEnv true),
          (2, RawPayload.badJson, calmEnv true)]).1.processed =
      (process_queue_run 3
        [(1, RawPayload.parsedJson sampleJob, calmEnv true),
          (2, RawPayload.badJson, calmEnv true)]).1.succeeded +
      (process_queue_run 3
        [(1, RawPayload.parsedJson sampleJob, calmEnv true),
          (2, RawPayload.badJson, calmEnv true)]).1.failed) := by
  decide

/-- On the fragment the claim's enumerated outcomes actually reach — every
payload parses, so every exception arises inside the per-message `try` —
the batch runs to completion and the returned stats do satisfy
`processed = succeeded + failed`, with DLQ moves plus discards never
exceeding `failed`. -/
theorem process_queue_run_partition_when_parsed (dlq_limit : Nat)
    (msgs : List (Nat × RawPayload × MsgEnv))
    (h : msgs.all (fun m => payload_parses m.2.1) = true) :
    (process_queue_run dlq_limit msgs).1.processed =
        (process_queue_run dlq_limit msgs).1.succeeded +
          (process_queue_run dlq_limit msgs).1.failed
    ∧ (process_queue_run dlq_limit msgs).1.moved_to_dlq +
          (process_queue_run dlq_limit msgs).1.discarded ≤
        (process_queue_run dlq_limit msgs).1.failed := by
  unfold process_queue_run
  rw [if_pos h]
  exact process_queue_foldl_statsInv dlq_limit (parsed_msgs msgs)
    (zeroStats, []) ⟨rfl, Nat.le_refl 0⟩

/-- C9: `process_dlq` runs the batch with the configured queue name set to
the DLQ name, and whether processing returns normally or raises, the
returned service configuration equals the pre-call one — `queue_name` is
restored and no other field changes. -/
theorem process_dlq_frame (svc : ServiceConfig)
    (reads : String → List (Nat × MsgData × MsgEnv)) (processRaises : Bool) :
    (process_dlq svc reads processRaises).1 = svc
    ∧ (process_dlq svc reads processRaises).2 =
        (if processRaises then none
          else some (process_queue svc.dlq_limit (reads svc.dlq_name)).1) := by
  obtain ⟨q, dl, c, b, l⟩ := svc
  cases processRaises <;> simp [process_dlq]

/-- Every state a batch can reach through semaphore events keeps
`permits + inFlightCalls` equal to the configured concurrency. -/
theorem dispatch_permit_invariant (k m : Nat) (s : DispatchState)
    (h : DispatchReachable k m s) : s.permits + s.inFlightCalls = k := by
  induction h with
  | refl => simp [dispatchInit]
  | tail hs step ih =>
    cases step <;> simp_all <;> omega

/-- C8: in every state a batch run can reach — any number of dequeued
messages `m`, any interleaving of permit acquisitions and releases — at
most `concurrency = k` gateway calls are in flight, because each
per-message send holds a permit from the fixed pool of `k` for the whole
attempt. -/
theorem dispatch_in_flight_bounded (k m : Nat) (s : DispatchState)
    (h : DispatchReachable k m s) : s.inFlightCalls ≤ k := by
  have hinv := dispatch_permit_invariant k m s h
  omega

/-- C8 witness: with concurrency 2 and a batch of 3 tasks, the state after
one acquisition is reachable and has one call in flight, within the bound
of 2. -/
theorem dispatch_in_flight_bounded_witness :
    DispatchReachable 2 3 ⟨1, 2, 1, 0⟩ ∧
    (DispatchState.mk 1 2 1 0).inFlightCalls ≤ 2 :=
  have hr : DispatchReachable 2 3 ⟨1, 2, 1, 0⟩ :=
    Relation.ReflTransGen.single (DispatchStep.acquire 1 2 0 0)
  ⟨hr, dispatch_in_flight_bounded 2 3 ⟨1, 2, 1, 0⟩ hr⟩

/-- C3: on a gateway response whose ticket array consists of JSON objects
(as the gateway contract specifies), the send returns `true` exactly when
every per-recipient ticket reports status `"ok"`; a single ticket
reporting `"error"` makes it return `false` for the whole job. -/
theorem rest_api_success_iff_all_ok (r : ApiResult)
    (hobj : ∀ t ∈ extract_tickets r, ∃ st, t = TicketJson.obj st) :
    (rest_api_body_success r = true ↔
      ∀ t ∈ extract_tickets r, t = TicketJson.obj (some "ok"))
    ∧ ((∃ t ∈ extract_tickets r, t = TicketJson.obj (some "error")) →
      rest_api_body_success r = false) := by
  constructor
  · unfold rest_api_body_success all_success
    rw [List.all_eq_true]
    constructor
    · intro h t ht
      have hp := h t ht
      obtain ⟨st, rfl⟩ := hobj t ht
      simp only [ticket_passes, beq_iff_eq] at hp
      rw [hp]
    · intro h t ht
      rw [h t ht]
      simp [ticket_passes]
  · rintro ⟨t, ht, rfl⟩
    unfold rest_api_body_success all_success
    rw [List.all_eq_false]
    exact ⟨_, ht, by simp [ticket_passes]⟩

/-- C3 witness: a two-ticket all-ok response succeeds, and the same
response with one error ticket fails. -/
theorem rest_api_success_iff_all_ok_witness :
    rest_api_body_success
        (ApiResult.withData
          [TicketJson.obj (some "ok"), TicketJson.obj (some "ok")]) = true
    ∧ rest_api_body_success
        (ApiResult.withData
          [TicketJson.obj (some "ok"), TicketJson.obj (some "error")]) = false := by
  have hall := rest_api_success_iff_all_ok
    (ApiResult.withData [TicketJson.obj (some "ok"), TicketJson.obj (some "ok")])
    (by rintro t ht; simp only [extract_tickets] at ht;
        fin_cases ht <;> exact ⟨_, rfl⟩)
  have herr := rest_api_success_iff_all_ok
    (ApiResult.withData [TicketJson.obj (some "ok"), TicketJson.obj (some "error")])
    (by rintro t ht; simp only [extract_tickets] at ht;
        fin_cases ht <;> exact ⟨_, rfl⟩)
  exact ⟨hall.1.mpr (by decide), herr.2 (by decide)⟩

/-- Every sleep `send_rest` performs is at most 60 seconds, for any
attempt results and any jitter draws. -/
theorem send_rest_delays_le_sixty (max_retries : Nat)
    (attempts : Nat → AttemptResult) (jitter : Nat → ℚ) :
    ∀ (n retry_count : Nat), max_retries - retry_count = n →
      ∀ d ∈ (send_rest max_retries attempts jitter retry_count).2, d ≤ 60 := by
  intro n
  induction n with
  | zero =>
    intro rc hn d hd
    rw [send_rest.eq_def] at hd
    rcases hA : attempts rc with r | code | _ <;> rw [hA] at hd <;>
      try simp at hd
    rw [if_neg (by omega : ¬ (rc < max_retries ∧ code = 429))] at hd
    simp at hd
  | succ n ih =>
    intro rc hn d hd
    rw [send_rest.eq_def] at hd
    rcases hA : attempts rc with r | code | _ <;> rw [hA] at hd <;>
      try simp at hd
    by_cases hc : rc < max_retries ∧ code = 429
    · rw [if_pos hc] at hd
      simp at hd
      rcases hd with rfl | hd
      · exact min_le_right _ _
      · exact ih (rc + 1) (by omega) d hd
    · rw [if_neg hc] at hd
      simp at hd

/-- C4: whenever an attempt gets HTTP 429 with `retry_count < max_retries`,
the send sleeps for `backoff_delay = min(2 ^ retry_count + jitter, 60)`
seconds and recurses at `retry_count + 1`; every delay it ever sleeps is
at most 60 seconds. -/
theorem send_rest_backoff_on_rate_limit (max_retries retry_count : Nat)
    (attempts : Nat → AttemptResult) (jitter : Nat → ℚ)
    (hA : attempts retry_count = AttemptResult.httpError 429)
    (hlt : retry_count < max_retries) :
    send_rest max_retries attempts jitter retry_count =
      ((send_rest max_retries attempts jitter (retry_count + 1)).1,
        backoff_delay retry_count (jitter retry_count) ::
          (send_rest max_retries attempts jitter (retry_count + 1)).2)
    ∧ backoff_delay retry_count (jitter retry_count) =
        min ((2 : ℚ) ^ retry_count + jitter retry_count) 60
    ∧ ∀ d ∈ (send_rest max_retries attempts jitter retry_count).2, d ≤ 60 := by
  refine ⟨?_, rfl, ?_⟩
  · rw [send_rest.eq_def]
    simp [hA, hlt]
  · exact send_rest_delays_le_sixty max_retries attempts jitter
      (max_retries - retry_count) retry_count rfl

/-- C4 witness: with `max_retries = 3` and every attempt rate-limited, the
first attempt at `retry_count = 0` with jitter one half sleeps exactly
`min(2 ^ 0 + 1/2, 60) = 3/2` seconds and recurses at retry 1. -/
theorem send_rest_backoff_on_rate_limit_witness :
    always429 0 = AttemptResult.httpError 429 ∧ 0 < 3 ∧
    send_rest 3 always429 halfJitter 0 =
      ((send_rest 3 always429 halfJitter 1).1,
        backoff_delay 0 (halfJitter 0) :: (send_rest 3 always429 halfJitter 1).2)
    ∧ backoff_delay 0 (halfJitter 0) = 3 / 2 := by
  have h := send_rest_backoff_on_rate_limit 3 0 always429 halfJitter rfl
    (by decide)
  refine ⟨rfl, by decide, h.1, ?_⟩
  rw [h.2.1]
  norm_num [halfJitter]

/-- C5: a non-rate-limit HTTP error (status other than 429), a rate-limit
error with retries exhausted (`max_retries ≤ retry_count`), or any other
exception all make the send return `false` immediately, with no sleep and
no further attempt. (The embedding returns rather than raises on the
exception branch, matching the `except` handlers at lines 418-447 that
convert every exception into a `false` return.) -/
theorem send_rest_fails_fast (max_retries retry_count statusCode : Nat)
    (attempts : Nat → AttemptResult) (jitter : Nat → ℚ) :
    (attempts retry_count = AttemptResult.httpError statusCode →
      (statusCode ≠ 429 ∨ max_retries ≤ retry_count) →
      send_rest max_retries attempts jitter retry_count = (false, []))
    ∧ (attempts retry_count = AttemptResult.otherError →
      send_rest max_retries attempts jitter retry_count = (false, [])) := by
  constructor
  · intro hA hnr
    have hcond : ¬ (retry_count < max_retries ∧ statusCode = 429) := by
      rcases hnr with h | h
      · exact fun hx => h hx.2
      · exact fun hx => absurd hx.1 (by omega)
    rw [send_rest.eq_def]
    simp [hA, hcond]
  · intro hA
    rw [send_rest.eq_def]
    simp [hA]

/-- C5 witness: an HTTP 500 on the first attempt, a 429 with retries
already exhausted, and a non-HTTP exception each return `(false, [])` at
once. -/
theorem send_rest_fails_fast_witness :
    always500 0 = AttemptResult.httpError 500 ∧ (500 : Nat) ≠ 429 ∧
    send_rest 3 always500 halfJitter 0 = (false, []) ∧
    (3 : Nat) ≤ 3 ∧
    send_rest 3 always429 halfJitter 3 = (false, []) ∧
    send_rest 3 alwaysRaise halfJitter 0 = (false, []) :=
  ⟨rfl, by decide,
    (send_rest_fails_fast 3 0 500 always500 halfJitter).1 rfl
      (Or.inl (by decide)),
    by decide,
    (send_rest_fails_fast 3 3 429 always429 halfJitter).1 rfl
      (Or.inr (by decide)),
    (send_rest_fails_fast 3 0 0 alwaysRaise halfJitter).2 rfl⟩

/-- C6: the enqueue operation rejects an empty title, body or recipients
list with `false` and no queue write; a priority outside
default/normal/high is silently normalized to `"default"` rather than
rejected; every job it writes has `failure_count = 0`; it returns `true`
exactly on a successful queue write and `false` on validation or
queue-write failure. (The whole body sits in a `try`/`except` returning
`false`, so the embedding is a total function: no exception reaches the
caller.) -/
theorem enqueue_notification_contract (title body priority : String)
    (recipients : List String) (queueWriteRaises : Bool) :
    ((title = "" ∨ body = "" ∨ recipients = []) →
      enqueue_notification title body recipients priority queueWriteRaises
        = (false, none))
    ∧ (∀ job,
      (enqueue_notification title body recipients priority queueWriteRaises).2
          = some job →
      job.failure_count = 0 ∧ job.priority = normalize_priority priority ∧
        (¬ (priority = "default" ∨ priority = "normal" ∨ priority = "high") →
          job.priority = "default"))
    ∧ (title ≠ "" → body ≠ "" → recipients ≠ [] → queueWriteRaises = false →
      enqueue_notification title body recipients priority queueWriteRaises =
        (true, some
          { title := title, body := body, recipients := recipients,
            priority := normalize_priority priority, failure_count := 0 }))
    ∧ (queueWriteRaises = true →
      (enqueue_notification title body recipients priority queueWriteRaises).1
        = false) := by
  refine ⟨fun h => ?_, fun job hj => ?_, fun ht hb hr hw => ?_, fun hw => ?_⟩
  · have hc : (title == "" || body == "" || recipients.isEmpty) = true := by
      rcases h with h | h | h <;> simp [h]
    simp [enqueue_notification, hc]
  · unfold enqueue_notification at hj
    split_ifs at hj with h1 h2 <;> simp at hj
    subst hj
    refine ⟨rfl, rfl, fun hp => ?_⟩
    have hc : (priority == "default" || priority == "normal" ||
        priority == "high") = false := by
      push_neg at hp
      simp [hp.1, hp.2.1, hp.2.2]
    simp [normalize_priority, hc]
  · have hc : (title == "" || body == "" || recipients.isEmpty) = false := by
      simp [ht, hb, hr]
    subst hw
    simp [enqueue_notification, hc]
  · subst hw
    by_cases h1 : (title == "" || body == "" || recipients.isEmpty) = true <;>
      simp [enqueue_notification, h1]

/-- C6 witness: an empty title is rejected with no write; an invalid
priority `"urgent"` is normalized to `"default"` on a successful write
with `failure_count = 0`; a queue-write failure returns `false`. -/
theorem enqueue_notification_contract_witness :
    enqueue_notification "" "b" ["tok"] "default" false = (false, none) ∧
    enqueue_notification "t" "b" ["tok"] "urgent" false =
      (true, some
        { title := "t", body := "b", recipients := ["tok"],
          priority := "default", failure_count := 0 }) ∧
    (enqueue_notification "t" "b" ["tok"] "default" true).1 = false := by
  refine ⟨(enqueue_notification_contract "" "b" "default" ["tok"] false).1
      (Or.inl rfl), ?_, (enqueue_notification_contract "t" "b" "default" ["tok"] true).2.2.2 rfl⟩
  have h := (enqueue_notification_contract "t" "b" "urgent" ["tok"] false).2.2.1
    (by decide) (by decide) (by decide) rfl
  rw [h]
  rfl
